import Mathlib

/-!
Verification of the natural-language-to-SQL agent (`sql_agent.py`).

The core class `NaturalLanguageToSQL` is embedded shallowly.  External
collaborators (the Gemini completion service, the MySQL driver, and the
stdlib JSON parser) are modelled as oracle fields of an `Env` record:
each completion call is an `Except String String` outcome (an `error`
models the Python call raising), the database is a function from SQL text
to an outcome (rows, or a `mysql.connector.Error`), and `json.loads` is a
function from text to a parse outcome.  Row values are a type parameter
`α` (Python `Any`).  Everything else — fence cleanup, executor, reviewer,
synthesizer, and the `ask_question` orchestration — is translated
line-for-line from the source.
-/

namespace SqlAgent

/-- `QueryResult` dataclass: one instance per execution attempt. -/
structure QueryResult (α : Type) where
  sql_query : String
  data : List (List (String × α))
  column_names : List String
  success : Bool
  error_message : Option String := none
deriving DecidableEq

/-- `SQLReview` dataclass: free-text critique plus optional corrected SQL. -/
structure SQLReview where
  review_text : String
  corrected_query : Option String := none
deriving DecidableEq

/-- `AgentResponse` dataclass: the final answer returned by `ask_question`. -/
structure AgentResponse (α : Type) where
  natural_language_answer : String
  query_result : QueryResult α
  review : Option SQLReview := none
deriving DecidableEq

/-- Outcome of one `cursor.execute` round trip: rows fetched, or a
`mysql.connector.Error` raised by the driver (caught by the executor). -/
inductive DbOutcome (α : Type) where
  | rows (data : List (List (String × α)))
  | dbError (err : String)
deriving DecidableEq

/-- Outcome of `json.loads` on the cleaned review response: a raised
`JSONDecodeError`, a parsed value that is not a dict (so `.get` raises
`AttributeError`, caught by the reviewer's fallback), or a dict whose
fields follow the review protocol (string values; a JSON-null
`corrected_query` is indistinguishable from an absent key under
`dict.get`). -/
inductive ParseOutcome where
  | failure (msg : String)
  | nonObject (msg : String)
  | object (fields : List (String × String))
deriving DecidableEq

/-- One external call performed during `ask_question`, in order. -/
inductive ExtCall where
  | genCall
  | execCall (sql : String)
  | reviewCall
  | synthCall
deriving DecidableEq

/-! ### Python string primitives on character lists -/

/-- Python `str.strip()`: drop whitespace from both ends. -/
def pyStripChars (cs : List Char) : List Char :=
  ((cs.dropWhile Char.isWhitespace).reverse.dropWhile Char.isWhitespace).reverse

/-- Python `str.strip()` on `String`. -/
def pyStrip (s : String) : String :=
  (pyStripChars s.toList).asString

/-- Python slicing `s[:-n]`. -/
def dropRightChars (n : Nat) (cs : List Char) : List Char :=
  cs.take (cs.length - n)

/-- The cleanup in `_generate_sql_query` (lines 144-151): strip, remove a
leading three-backtick-sql fence and a trailing three-backtick fence if
present, strip again. -/
def cleanupSqlChars (cs : List Char) : List Char :=
  let cs := pyStripChars cs
  let cs := if "```sql".toList.isPrefixOf cs then cs.drop 6 else cs
  let cs := if "```".toList.isSuffixOf cs then dropRightChars 3 cs else cs
  pyStripChars cs

/-- `_generate_sql_query`'s cleanup on `String`. -/
def cleanupSqlResponse (text : String) : String :=
  (cleanupSqlChars text.toList).asString

/-- The cleanup in `_review_sql_query` (lines 229-234): strip, remove a
leading three-backtick-json fence and a trailing three-backtick fence if
present, strip again. -/
def cleanupJsonChars (cs : List Char) : List Char :=
  let cs := pyStripChars cs
  let cs := if "```json".toList.isPrefixOf cs then cs.drop 7 else cs
  let cs := if "```".toList.isSuffixOf cs then dropRightChars 3 cs else cs
  pyStripChars cs

/-- `_review_sql_query`'s response cleanup on `String`. -/
def cleanupJsonResponse (text : String) : String :=
  (cleanupJsonChars text.toList).asString

/-- Python f-string rendering of an `Optional[str]` (`None` prints as
`"None"`). -/
def pyStr : Option String → String
  | none => "None"
  | some s => s

/-- Python truthiness of an `Optional[str]`: `None` and the empty string
are falsy.  Returns the value exactly when it is truthy. -/
def pyTruthy : Option String → Option String
  | none => none
  | some s => if s = "" then none else some s

/-! ### Components -/

/-- `list(data[0].keys()) if data else []` (line 170): the column names
come from the first row, in insertion order, else the empty list. -/
def columnNamesOf {α : Type} (data : List (List (String × α))) : List String :=
  match data with
  | [] => []
  | row :: _ => row.map Prod.fst

/-- `_execute_sql_query` (lines 163-202): execute, fetch all rows; a
`mysql.connector.Error` is caught and converted to a failed
`QueryResult` rather than raised. -/
def executeSqlQuery {α : Type} (db : String → DbOutcome α) (sql_query : String) :
    QueryResult α :=
  match db sql_query with
  | .rows data =>
      { sql_query := sql_query
        data := data
        column_names := columnNamesOf data
        success := true
        error_message := none }
  | .dbError err =>
      { sql_query := sql_query
        data := []
        column_names := []
        success := false
        error_message := some ("SQL execution error: " ++ err) }

/-- `_review_sql_query` (lines 204-257): request a critique, clean and
parse the JSON response, extract the two fields with defaults; any
exception (completion failure, `JSONDecodeError`, `.get` on a non-dict)
falls back to an error-text review with no correction. -/
def reviewSqlQuery (reviewOutcome : Except String String)
    (parseJson : String → ParseOutcome) : SQLReview :=
  match reviewOutcome with
  | .error e =>
      { review_text := "Error: Could not review SQL query due to an internal error: " ++ e
        corrected_query := none }
  | .ok text =>
      match parseJson (cleanupJsonResponse text) with
      | .failure msg =>
          { review_text := "Error: Could not review SQL query due to an internal error: " ++ msg
            corrected_query := none }
      | .nonObject msg =>
          { review_text := "Error: Could not review SQL query due to an internal error: " ++ msg
            corrected_query := none }
      | .object fields =>
          { review_text := (fields.lookup "review").getD "No review text provided."
            corrected_query := fields.lookup "corrected_query" }

/-- `_format_natural_language_response` (lines 259-303).  Returns the
answer together with a flag recording whether the completion service was
invoked: the two short-circuit branches return without a call; otherwise
the call is made and a completion error degrades to the row-count
fallback sentence. -/
def formatNaturalLanguageResponse {α : Type} (synthOutcome : Except String String)
    (question : String) (query_result : QueryResult α)
    (review_text : Option String) : String × Bool :=
  if query_result.success = false then
    ("I encountered an error while processing your question: " ++
      pyStr query_result.error_message, false)
  else if query_result.data.isEmpty then
    ("I found no results for your question in the database.", false)
  else
    match synthOutcome with
    | .ok text => (pyStrip text, true)
    | .error _ =>
        ("I found " ++ toString query_result.data.length ++
          " results, but encountered an error formatting the response.", true)

/-- The external world of one `ask_question` run: the three completion
call outcomes (generation, review, synthesis), the database, and the
stdlib JSON parse behaviour. -/
structure Env (α : Type) where
  genOutcome : Except String String
  db : String → DbOutcome α
  reviewOutcome : Except String String
  parseJson : String → ParseOutcome
  synthOutcome : Except String String

/-- The `try` body of `ask_question` (lines 312-358).  The only raising
step is SQL generation (`_generate_sql_query` re-raises completion
errors); the executor, reviewer and synthesizer are non-throwing by
their own contracts.  Returns the response plus the trace of external
calls. -/
def askQuestionBody {α : Type} (env : Env α) (question : String) :
    Except String (AgentResponse α × List ExtCall) :=
  match env.genOutcome with
  | .error e => .error e
  | .ok text =>
      let sql := cleanupSqlResponse text
      let initial := executeSqlQuery env.db sql
      if initial.success then
        let fmt := formatNaturalLanguageResponse env.synthOutcome question initial none
        .ok ({ natural_language_answer := fmt.1
               query_result := initial
               review := none },
             [.genCall, .execCall sql] ++ (if fmt.2 then [.synthCall] else []))
      else
        let review := reviewSqlQuery env.reviewOutcome env.parseJson
        match pyTruthy review.corrected_query with
        | some corrected =>
            let final := executeSqlQuery env.db corrected
            let fmt := formatNaturalLanguageResponse env.synthOutcome question final
              (some review.review_text)
            .ok ({ natural_language_answer := fmt.1
                   query_result := final
                   review := some review },
                 [.genCall, .execCall sql, .reviewCall, .execCall corrected] ++
                   (if fmt.2 then [.synthCall] else []))
        | none =>
            let fmt := formatNaturalLanguageResponse env.synthOutcome question initial
              (some review.review_text)
            .ok ({ natural_language_answer := fmt.1
                   query_result := initial
                   review := some review },
                 [.genCall, .execCall sql, .reviewCall] ++
                   (if fmt.2 then [.synthCall] else []))

/-- `ask_question` (lines 305-367): the `try` body wrapped in the
top-level `except`, which converts any exception into a well-formed
error response (lines 360-367). -/
def askQuestion {α : Type} (env : Env α) (question : String) :
    AgentResponse α × List ExtCall :=
  match askQuestionBody env question with
  | .ok r => r
  | .error e =>
      ({ natural_language_answer := "Error processing question: " ++ e
         query_result :=
           { sql_query := ""
             data := []
             column_names := []
             success := false
             error_message := some e }
         review := none },
       [.genCall])

/-- The SQL strings passed to `_execute_sql_query` during a run, in
order. -/
def execCalls (tr : List ExtCall) : List String :=
  tr.filterMap fun c =>
    match c with
    | .execCall s => some s
    | _ => none

/-- The initial execution's result, when generation succeeded. -/
def theInitialResult {α : Type} (env : Env α) : Option (QueryResult α) :=
  match env.genOutcome with
  | .error _ => none
  | .ok text => some (executeSqlQuery env.db (cleanupSqlResponse text))

/-- Whether `ask_question` performs a review: exactly when the initial
execution happened and failed. -/
def reviewHappened {α : Type} (env : Env α) : Bool :=
  match theInitialResult env with
  | none => false
  | some r => !r.success

/-! ### Concrete environments used by the witnesses and counterexamples -/

/-- Run in which the initial query fails and the reviewer supplies a
non-empty corrected query that succeeds. -/
def envC1 : Env String :=
  { genOutcome := .ok "SELECT a FROM tt"
    db := fun s =>
      if s = "SELECT a FROM t2" then .rows [[("a", "1")]]
      else .dbError "table tt does not exist"
    reviewOutcome := .ok "REVIEW_RESPONSE_OK"
    parseJson := fun s =>
      if s = "REVIEW_RESPONSE_OK" then
        .object [("review", "tt should be t2"), ("corrected_query", "SELECT a FROM t2")]
      else .failure "invalid JSON"
    synthOutcome := .ok "There is one row." }

/-- Run in which the initial query fails and the reviewer returns a
non-null but empty corrected query. -/
def envC1x : Env String :=
  { genOutcome := .ok "SELECT a FROM tt"
    db := fun _ => .dbError "table tt does not exist"
    reviewOutcome := .ok "REVIEW_EMPTY_FIX"
    parseJson := fun s =>
      if s = "REVIEW_EMPTY_FIX" then
        .object [("review", "cannot fix"), ("corrected_query", "")]
      else .failure "invalid JSON"
    synthOutcome := .ok "unused" }

/-- Run in which generation and the initial execution both succeed. -/
def envC2 : Env String :=
  { genOutcome := .ok "SELECT a FROM t"
    db := fun s =>
      if s = "SELECT a FROM t" then .rows [[("a", "1"), ("b", "2")]]
      else .dbError "no such table"
    reviewOutcome := .error "unused"
    parseJson := fun _ => .failure "unused"
    synthOutcome := .ok "  The table has one row.  " }

/-- Run in which the initial query fails and the reviewer returns review
text without a corrected query. -/
def envC3 : Env String :=
  { genOutcome := .ok "SELECT a FROM ghost"
    db := fun _ => .dbError "table ghost does not exist"
    reviewOutcome := .ok "REVIEW_NO_FIX"
    parseJson := fun s =>
      if s = "REVIEW_NO_FIX" then .object [("review", "the table does not exist")]
      else .failure "invalid JSON"
    synthOutcome := .ok "unused" }

/-- Run in which the generation completion call raises. -/
def envC4 : Env String :=
  { genOutcome := .error "completion quota exceeded"
    db := fun _ => .dbError "unused"
    reviewOutcome := .error "unused"
    parseJson := fun _ => .failure "unused"
    synthOutcome := .error "unused" }

/-- Database behaviour with one erroring statement and one zero-row
statement. -/
def dbC5 : String → DbOutcome String := fun s =>
  if s = "SELECT a FROM empty_t" then .rows []
  else .dbError "syntax error"

/-- Run taking the failed-initial, no-correction path, used to
instantiate the orchestrator invariants. -/
def envC6 : Env String :=
  { genOutcome := .ok "SELECT a FROM ghost2"
    db := fun _ => .dbError "table ghost2 does not exist"
    reviewOutcome := .ok "REVIEW_NO_FIX2"
    parseJson := fun s =>
      if s = "REVIEW_NO_FIX2" then .object [("review", "no such table")]
      else .failure "invalid JSON"
    synthOutcome := .ok "unused" }

/-- JSON parse behaviour with one undecodable response, one non-dict
response and one empty-dict response. -/
def pjC7 : String → ParseOutcome := fun s =>
  if s = "BADJSON" then .failure "Expecting value"
  else if s = "NOTDICT" then .nonObject "list object has no attribute get"
  else if s = "EMPTYOBJ" then .object []
  else .failure "other"

/-- A failed execution result. -/
def qrFail : QueryResult String :=
  { sql_query := "SELECT bad", data := [], column_names := [], success := false
    error_message := some "SQL execution error: bad" }

/-- A successful zero-row execution result. -/
def qrEmpty : QueryResult String :=
  { sql_query := "SELECT a FROM empty_t", data := [], column_names := [], success := true
    error_message := none }

/-- A successful execution result with one row. -/
def qrRows : QueryResult String :=
  { sql_query := "SELECT a FROM t", data := [[("a", "1")]], column_names := ["a"]
    success := true, error_message := none }

/-- Run in which every executed query fails and the review cannot be
obtained. -/
def envC10 : Env String :=
  { genOutcome := .ok "SELECT x"
    db := fun _ => .dbError "connection gone"
    reviewOutcome := .error "completion unavailable"
    parseJson := fun _ => .failure "unused"
    synthOutcome := .ok "unused" }

/-! ### Helper lemmas -/

theorem execCalls_append (l1 l2 : List ExtCall) :
    execCalls (l1 ++ l2) = execCalls l1 ++ execCalls l2 := by
  unfold execCalls
  exact List.filterMap_append _ _ _

theorem execCalls_synth_if (b : Bool) :
    execCalls (if b then [ExtCall.synthCall] else []) = [] := by
  cases b <;> rfl

theorem isPrefixOf_append_self (p rest : List Char) : p.isPrefixOf (p ++ rest) = true := by
  rw [ List.isPrefixOf_iff_prefix]
  exact List.prefix_append p rest

theorem isSuffixOf_append_self (p rest : List Char) : p.isSuffixOf (rest ++ p) = true := by
  rw [List.isSuffixOf_iff_suffix]
  exact List.suffix_append rest p

theorem pyStripChars_of_nonws (a z : Char) (mid : List Char)
    (ha : a.isWhitespace = false) (hz : z.isWhitespace = false) :
    pyStripChars (a :: (mid ++ [z])) = a :: (mid ++ [z]) := by
  unfold pyStripChars
  rw [List.dropWhile_cons_of_neg (by simp [ha])]
  rw [show (a :: (mid ++ [z])).reverse = z :: (mid.reverse ++ [a]) by simp]
  rw [List.dropWhile_cons_of_neg (by simp [hz])]
  simp

theorem cleanup_nofence_chars (cs : List Char)
    (h1 : pyStripChars cs = cs)
    (h2 : "```sql".toList.isPrefixOf cs = false)
    (h3 : "```".toList.isSuffixOf cs = false) :
    cleanupSqlChars cs = cs := by
  have hA : ¬ ("```sql".toList.isPrefixOf cs = true) := by
    rw [h2]
    simp
  have hB : ¬ ("```".toList.isSuffixOf cs = true) := by
    rw [h3]
    simp
  simp only [cleanupSqlChars]
  rw [h1, if_neg hA, if_neg hB]
  exact h1

theorem cleanup_fenced_chars (s : List Char) :
    cleanupSqlChars ("```sql".toList ++ s ++ "```".toList) = pyStripChars s := by
  have h96 : (Char.ofNat 96).isWhitespace = false := by decide
  have hstrip : pyStripChars ("```sql".toList ++ s ++ "```".toList) =
      "```sql".toList ++ s ++ "```".toList := by
    have hmain := pyStripChars_of_nonws (Char.ofNat 96) (Char.ofNat 96)
      ((Char.ofNat 96 :: Char.ofNat 96 :: 's' :: 'q' :: 'l' :: []) ++ s ++
        (Char.ofNat 96 :: Char.ofNat 96 :: [])) h96 h96
    have harg : "```sql".toList ++ s ++ "```".toList =
        Char.ofNat 96 :: (((Char.ofNat 96 :: Char.ofNat 96 :: 's' :: 'q' :: 'l' :: []) ++ s ++
          (Char.ofNat 96 :: Char.ofNat 96 :: [])) ++ [Char.ofNat 96]) := by
      have hf : "```sql".toList =
          Char.ofNat 96 :: Char.ofNat 96 :: Char.ofNat 96 :: 's' :: 'q' :: 'l' :: [] := by
        decide
      have hb : "```".toList = Char.ofNat 96 :: Char.ofNat 96 :: Char.ofNat 96 :: [] := by
        decide
      rw [hf, hb]
      simp
    rw [harg]
    exact hmain
  have hpre : "```sql".toList.isPrefixOf ("```sql".toList ++ s ++ "```".toList) = true := by
    rw [List.append_assoc]
    exact isPrefixOf_append_self _ _
  have hdrop : ("```sql".toList ++ s ++ "```".toList).drop 6 = s ++ "```".toList := by
    rw [List.append_assoc]
    rw [show (6 : Nat) = "```sql".toList.length from by decide]
    exact List.drop_left _ _
  have hsuf : "```".toList.isSuffixOf (s ++ "```".toList) = true := isSuffixOf_append_self _ _
  have htake : dropRightChars 3 (s ++ "```".toList) = s := by
    unfold dropRightChars
    have hlen : (s ++ "```".toList).length - 3 = s.length := by simp
    rw [hlen]
    exact List.take_left _ _
  simp only [cleanupSqlChars]
  rw [hstrip, if_pos hpre, hdrop, if_pos hsuf, htake]

theorem toList_append_eq (a b : String) : (a ++ b).toList = a.toList ++ b.toList := by
  simp [String.toList, String.data_append]

theorem asString_toList (s : String) : s.toList.asString = s := by
  cases s
  rfl

theorem body_success {α : Type} (env : Env α) (question text : String)
    (hgen : env.genOutcome = Except.ok text)
    (hsucc : (executeSqlQuery env.db (cleanupSqlResponse text)).success = true) :
    askQuestionBody env question = Except.ok
      ({ natural_language_answer :=
           (formatNaturalLanguageResponse env.synthOutcome question
             (executeSqlQuery env.db (cleanupSqlResponse text)) none).1
         query_result := executeSqlQuery env.db (cleanupSqlResponse text)
         review := none },
       [ExtCall.genCall, ExtCall.execCall (cleanupSqlResponse text)] ++
         (if (formatNaturalLanguageResponse env.synthOutcome question
               (executeSqlQuery env.db (cleanupSqlResponse text)) none).2
          then [ExtCall.synthCall] else [])) := by
  simp only [askQuestionBody, hgen]
  rw [if_pos hsucc]

theorem body_corrected {α : Type} (env : Env α) (question text c : String)
    (hgen : env.genOutcome = Except.ok text)
    (hfail : (executeSqlQuery env.db (cleanupSqlResponse text)).success = false)
    (hpt : pyTruthy (reviewSqlQuery env.reviewOutcome env.parseJson).corrected_query = some c) :
    askQuestionBody env question = Except.ok
      ({ natural_language_answer :=
           (formatNaturalLanguageResponse env.synthOutcome question
             (executeSqlQuery env.db c)
             (some (reviewSqlQuery env.reviewOutcome env.parseJson).review_text)).1
         query_result := executeSqlQuery env.db c
         review := some (reviewSqlQuery env.reviewOutcome env.parseJson) },
       [ExtCall.genCall, ExtCall.execCall (cleanupSqlResponse text), ExtCall.reviewCall,
        ExtCall.execCall c] ++
         (if (formatNaturalLanguageResponse env.synthOutcome question
               (executeSqlQuery env.db c)
               (some (reviewSqlQuery env.reviewOutcome env.parseJson).review_text)).2
          then [ExtCall.synthCall] else [])) := by
  simp only [askQuestionBody, hgen]
  rw [if_neg (by rw [hfail]; simp)]
  simp only [hpt]

theorem body_nocorrection {α : Type} (env : Env α) (question text : String)
    (hgen : env.genOutcome = Except.ok text)
    (hfail : (executeSqlQuery env.db (cleanupSqlResponse text)).success = false)
    (hpt : pyTruthy (reviewSqlQuery env.reviewOutcome env.parseJson).corrected_query = none) :
    askQuestionBody env question = Except.ok
      ({ natural_language_answer :=
           (formatNaturalLanguageResponse env.synthOutcome question
             (executeSqlQuery env.db (cleanupSqlResponse text))
             (some (reviewSqlQuery env.reviewOutcome env.parseJson).review_text)).1
         query_result := executeSqlQuery env.db (cleanupSqlResponse text)
         review := some (reviewSqlQuery env.reviewOutcome env.parseJson) },
       [ExtCall.genCall, ExtCall.execCall (cleanupSqlResponse text), ExtCall.reviewCall] ++
         (if (formatNaturalLanguageResponse env.synthOutcome question
               (executeSqlQuery env.db (cleanupSqlResponse text))
               (some (reviewSqlQuery env.reviewOutcome env.parseJson).review_text)).2
          then [ExtCall.synthCall] else [])) := by
  simp only [askQuestionBody, hgen]
  rw [if_neg (by rw [hfail]; simp)]
  simp only [hpt]

theorem exec_fail_empty {α : Type} (db : String → DbOutcome α) (s : String)
    (h : (executeSqlQuery db s).success = false) :
    (executeSqlQuery db s).data = [] ∧ (executeSqlQuery db s).column_names = [] := by
  cases hdb : db s with
  | rows data =>
    exfalso
    unfold executeSqlQuery at h
    rw [hdb] at h
    simp at h
  | dbError err =>
    unfold executeSqlQuery
    rw [hdb]
    exact ⟨rfl, rfl⟩

/-! ### Claims -/

/-- C1 (amended): for every question where the initial execution fails
and the reviewer returns a non-null, non-empty corrected query,
`ask_question` performs exactly one re-execution, of the corrected SQL,
and the response's `query_result` is the result of that re-execution
whether it succeeded or failed; no further retry occurs. -/
theorem ask_corrected_retry_once {α : Type} (env : Env α) (question text c : String)
    (hgen : env.genOutcome = Except.ok text)
    (hfail : (executeSqlQuery env.db (cleanupSqlResponse text)).success = false)
    (hcorr : (reviewSqlQuery env.reviewOutcome env.parseJson).corrected_query = some c)
    (hne : c ≠ "") :
    execCalls (askQuestion env question).2 = [cleanupSqlResponse text, c] ∧
    (askQuestion env question).1.query_result = executeSqlQuery env.db c ∧
    (askQuestion env question).1.review =
      some (reviewSqlQuery env.reviewOutcome env.parseJson) := by
  have hpt : pyTruthy (reviewSqlQuery env.reviewOutcome env.parseJson).corrected_query =
      some c := by
    rw [hcorr]
    simp only [pyTruthy]
    rw [if_neg hne]
  have hq : askQuestion env question =
      ({ natural_language_answer :=
           (formatNaturalLanguageResponse env.synthOutcome question
             (executeSqlQuery env.db c)
             (some (reviewSqlQuery env.reviewOutcome env.parseJson).review_text)).1
         query_result := executeSqlQuery env.db c
         review := some (reviewSqlQuery env.reviewOutcome env.parseJson) },
       [ExtCall.genCall, ExtCall.execCall (cleanupSqlResponse text), ExtCall.reviewCall,
        ExtCall.execCall c] ++
         (if (formatNaturalLanguageResponse env.synthOutcome question
               (executeSqlQuery env.db c)
               (some (reviewSqlQuery env.reviewOutcome env.parseJson).review_text)).2
          then [ExtCall.synthCall] else [])) := by
    simp only [askQuestion, body_corrected env question text c hgen hfail hpt]
  rw [hq]
  refine ⟨?_, rfl, rfl⟩
  rw [execCalls_append, execCalls_synth_if]
  rfl

/-- Witness for C1 at `envC1`: the corrected query is re-executed once
and its result is returned. -/
theorem ask_corrected_retry_once_witness :
    execCalls (askQuestion envC1 "How many rows?").2 =
      [cleanupSqlResponse "SELECT a FROM tt", "SELECT a FROM t2"] ∧
    (askQuestion envC1 "How many rows?").1.query_result =
      executeSqlQuery envC1.db "SELECT a FROM t2" ∧
    (askQuestion envC1 "How many rows?").1.review =
      some (reviewSqlQuery envC1.reviewOutcome envC1.parseJson) :=
  ask_corrected_retry_once envC1 "How many rows?" "SELECT a FROM tt" "SELECT a FROM t2"
    rfl (by decide) (by decide) (by decide)

/-- Counterexample to C1 as stated: at `envC1x` the reviewer returns a
non-null corrected query (the empty string), yet no re-execution happens
— only the initial SQL is ever executed — and the response's
`query_result` is the original failed result.  The code guards the retry
with Python truthiness, not a null check. -/
theorem ask_corrected_counterexample :
    (executeSqlQuery envC1x.db (cleanupSqlResponse "SELECT a FROM tt")).success = false ∧
    (reviewSqlQuery envC1x.reviewOutcome envC1x.parseJson).corrected_query = some "" ∧
    (reviewSqlQuery envC1x.reviewOutcome envC1x.parseJson).corrected_query ≠ none ∧
    execCalls (askQuestion envC1x "q").2 = ["SELECT a FROM tt"] ∧
    (askQuestion envC1x "q").1.query_result =
      executeSqlQuery envC1x.db "SELECT a FROM tt" := by
  decide

/-- C2: for every question where SQL generation and the initial
execution both succeed, the response has `review = None`, its
`query_result` is the initial execution's result, and no review and no
second execution happen. -/
theorem ask_success_no_review {α : Type} (env : Env α) (question text : String)
    (hgen : env.genOutcome = Except.ok text)
    (hsucc : (executeSqlQuery env.db (cleanupSqlResponse text)).success = true) :
    (askQuestion env question).1.review = none ∧
    (askQuestion env question).1.query_result =
      executeSqlQuery env.db (cleanupSqlResponse text) ∧
    execCalls (askQuestion env question).2 = [cleanupSqlResponse text] ∧
    ExtCall.reviewCall ∉ (askQuestion env question).2 := by
  have hq : askQuestion env question =
      ({ natural_language_answer :=
           (formatNaturalLanguageResponse env.synthOutcome question
             (executeSqlQuery env.db (cleanupSqlResponse text)) none).1
         query_result := executeSqlQuery env.db (cleanupSqlResponse text)
         review := none },
       [ExtCall.genCall, ExtCall.execCall (cleanupSqlResponse text)] ++
         (if (formatNaturalLanguageResponse env.synthOutcome question
               (executeSqlQuery env.db (cleanupSqlResponse text)) none).2
          then [ExtCall.synthCall] else [])) := by
    simp only [askQuestion, body_success env question text hgen hsucc]
  rw [hq]
  refine ⟨rfl, rfl, ?_, ?_⟩
  · rw [execCalls_append, execCalls_synth_if]
    rfl
  · cases (formatNaturalLanguageResponse env.synthOutcome question
      (executeSqlQuery env.db (cleanupSqlResponse text)) none).2 <;> simp

/-- Witness for C2 at `envC2`. -/
theorem ask_success_no_review_witness :
    (askQuestion envC2 "How many rows?").1.review = none ∧
    (askQuestion envC2 "How many rows?").1.query_result =
      executeSqlQuery envC2.db (cleanupSqlResponse "SELECT a FROM t") ∧
    execCalls (askQuestion envC2 "How many rows?").2 =
      [cleanupSqlResponse "SELECT a FROM t"] ∧
    ExtCall.reviewCall ∉ (askQuestion envC2 "How many rows?").2 :=
  ask_success_no_review envC2 "How many rows?" "SELECT a FROM t" rfl (by decide)

/-- C3: for every question where the initial execution fails and the
reviewer's `SQLReview` has `corrected_query = None`, the response's
`query_result` is the original failed result, the `review` field is the
reviewer's `SQLReview`, and no second execution happens. -/
theorem ask_no_correction_keeps_original {α : Type} (env : Env α) (question text : String)
    (hgen : env.genOutcome = Except.ok text)
    (hfail : (executeSqlQuery env.db (cleanupSqlResponse text)).success = false)
    (hnone : (reviewSqlQuery env.reviewOutcome env.parseJson).corrected_query = none) :
    (askQuestion env question).1.query_result =
      executeSqlQuery env.db (cleanupSqlResponse text) ∧
    (askQuestion env question).1.review =
      some (reviewSqlQuery env.reviewOutcome env.parseJson) ∧
    execCalls (askQuestion env question).2 = [cleanupSqlResponse text] := by
  have hpt : pyTruthy (reviewSqlQuery env.reviewOutcome env.parseJson).corrected_query =
      none := by
    rw [hnone]
    rfl
  have hq : askQuestion env question =
      ({ natural_language_answer :=
           (formatNaturalLanguageResponse env.synthOutcome question
             (executeSqlQuery env.db (cleanupSqlResponse text))
             (some (reviewSqlQuery env.reviewOutcome env.parseJson).review_text)).1
         query_result := executeSqlQuery env.db (cleanupSqlResponse text)
         review := some (reviewSqlQuery env.reviewOutcome env.parseJson) },
       [ExtCall.genCall, ExtCall.execCall (cleanupSqlResponse text), ExtCall.reviewCall] ++
         (if (formatNaturalLanguageResponse env.synthOutcome question
               (executeSqlQuery env.db (cleanupSqlResponse text))
               (some (reviewSqlQuery env.reviewOutcome env.parseJson).review_text)).2
          then [ExtCall.synthCall] else [])) := by
    simp only [askQuestion, body_nocorrection env question text hgen hfail hpt]
  rw [hq]
  refine ⟨rfl, rfl, ?_⟩
  rw [execCalls_append, execCalls_synth_if]
  rfl

/-- Witness for C3 at `envC3`. -/
theorem ask_no_correction_keeps_original_witness :
    (askQuestion envC3 "q").1.query_result =
      executeSqlQuery envC3.db (cleanupSqlResponse "SELECT a FROM ghost") ∧
    (askQuestion envC3 "q").1.review =
      some (reviewSqlQuery envC3.reviewOutcome envC3.parseJson) ∧
    execCalls (askQuestion envC3 "q").2 = [cleanupSqlResponse "SELECT a FROM ghost"] :=
  ask_no_correction_keeps_original envC3 "q" "SELECT a FROM ghost" rfl (by decide) (by decide)

/-- C4: `ask_question` never raises — in the embedding it is a total
function — and any exception thrown inside its `try` body (in the model,
a generation-completion failure, the only raising step) is converted
into an `AgentResponse` whose answer carries the error text, whose
`query_result` has `success = false` with the error as `error_message`,
and whose `review` is `None`. -/
theorem ask_question_catches {α : Type} (env : Env α) (q e : String)
    (h : askQuestionBody env q = Except.error e) :
    askQuestion env q =
      ({ natural_language_answer := "Error processing question: " ++ e
         query_result :=
           { sql_query := "", data := [], column_names := [], success := false,
             error_message := some e }
         review := none },
       [ExtCall.genCall]) := by
  unfold askQuestion
  rw [h]

/-- Witness for C4 at `envC4`, where the generation call raises. -/
theorem ask_question_catches_witness :
    askQuestion envC4 "q" =
      ({ natural_language_answer := "Error processing question: completion quota exceeded"
         query_result :=
           { sql_query := "", data := [], column_names := [], success := false,
             error_message := some "completion quota exceeded" }
         review := none },
       [ExtCall.genCall]) :=
  ask_question_catches envC4 "q" "completion quota exceeded" rfl

/-- C5: for every SQL string, the executor converts a database error
into a `QueryResult` with `success = false` and a human-readable
`error_message` instead of raising (the embedding is total), and a
successful zero-row execution yields `success = true` with empty data
and an empty column list, distinguishable from a failure. -/
theorem executor_contract {α : Type} (db : String → DbOutcome α) (sql1 sql2 err : String)
    (h1 : db sql1 = .dbError err) (h2 : db sql2 = .rows []) :
    executeSqlQuery db sql1 =
      { sql_query := sql1, data := [], column_names := [], success := false,
        error_message := some ("SQL execution error: " ++ err) } ∧
    executeSqlQuery db sql2 =
      { sql_query := sql2, data := [], column_names := [], success := true,
        error_message := none } := by
  constructor
  · unfold executeSqlQuery
    rw [h1]
  · unfold executeSqlQuery
    rw [h2]
    rfl

/-- Witness for C5 at `dbC5`. -/
theorem executor_contract_witness :
    executeSqlQuery dbC5 "DROP TABLE t" =
      { sql_query := "DROP TABLE t", data := [], column_names := [], success := false,
        error_message := some ("SQL execution error: " ++ "syntax error") } ∧
    executeSqlQuery dbC5 "SELECT a FROM empty_t" =
      { sql_query := "SELECT a FROM empty_t", data := [], column_names := [],
        success := true, error_message := none } :=
  executor_contract dbC5 "DROP TABLE t" "SELECT a FROM empty_t" "syntax error"
    (by decide) (by decide)

/-- C6: for every response of `ask_question`, `review` is populated if
and only if the initial execution happened and failed (a review is then
always performed), and whenever an initial execution happened the
response's `query_result` is the result of the query that succeeded, or
of the last attempted query: the initial result on success or when no
truthy correction exists, else the corrected query's result. -/
theorem ask_question_invariants {α : Type} (env : Env α) (question : String) :
    (askQuestion env question).1.review.isSome = reviewHappened env ∧
    (∀ r : QueryResult α, theInitialResult env = some r →
      (askQuestion env question).1.query_result =
        (if r.success then r
         else
           match pyTruthy (reviewSqlQuery env.reviewOutcome env.parseJson).corrected_query with
           | some c => executeSqlQuery env.db c
           | none => r)) := by
  cases hg : env.genOutcome with
  | error e =>
    have hrev : (askQuestion env question).1.review = none := by
      unfold askQuestion
      simp only [askQuestionBody, hg]
    constructor
    · rw [hrev]
      simp [reviewHappened, theInitialResult, hg]
    · intro r hr
      simp [theInitialResult, hg] at hr
  | ok text =>
    cases hs : (executeSqlQuery env.db (cleanupSqlResponse text)).success with
    | true =>
      have hrev : (askQuestion env question).1.review = none := by
        simp only [askQuestion, body_success env question text hg hs]
      have hqr : (askQuestion env question).1.query_result =
          executeSqlQuery env.db (cleanupSqlResponse text) := by
        simp only [askQuestion, body_success env question text hg hs]
      constructor
      · rw [hrev]
        simp [reviewHappened, theInitialResult, hg, hs]
      · intro r hr
        simp only [theInitialResult, hg, Option.some.injEq] at hr
        subst hr
        rw [hqr, if_pos hs]
    | false =>
      cases hpt : pyTruthy (reviewSqlQuery env.reviewOutcome env.parseJson).corrected_query with
      | some c =>
        have hrev : (askQuestion env question).1.review =
            some (reviewSqlQuery env.reviewOutcome env.parseJson) := by
          simp only [askQuestion, body_corrected env question text c hg hs hpt]
        have hqr : (askQuestion env question).1.query_result = executeSqlQuery env.db c := by
          simp only [askQuestion, body_corrected env question text c hg hs hpt]
        constructor
        · rw [hrev]
          simp [reviewHappened, theInitialResult, hg, hs]
        · intro r hr
          simp only [theInitialResult, hg, Option.some.injEq] at hr
          subst hr
          rw [hqr, if_neg (by rw [hs]; simp)]
      | none =>
        have hrev : (askQuestion env question).1.review =
            some (reviewSqlQuery env.reviewOutcome env.parseJson) := by
          simp only [askQuestion, body_nocorrection env question text hg hs hpt]
        have hqr : (askQuestion env question).1.query_result =
            executeSqlQuery env.db (cleanupSqlResponse text) := by
          simp only [askQuestion, body_nocorrection env question text hg hs hpt]
        constructor
        · rw [hrev]
          simp [reviewHappened, theInitialResult, hg, hs]
        · intro r hr
          simp only [theInitialResult, hg, Option.some.injEq] at hr
          subst hr
          rw [hqr, if_neg (by rw [hs]; simp)]

/-- Witness for C6 at `envC6`, a failed-initial, no-correction run. -/
theorem ask_question_invariants_witness :
    (askQuestion envC6 "q").1.review.isSome = reviewHappened envC6 ∧
    (askQuestion envC6 "q").1.query_result =
      (if (executeSqlQuery envC6.db (cleanupSqlResponse "SELECT a FROM ghost2")).success
       then executeSqlQuery envC6.db (cleanupSqlResponse "SELECT a FROM ghost2")
       else
         match pyTruthy (reviewSqlQuery envC6.reviewOutcome envC6.parseJson).corrected_query with
         | some c => executeSqlQuery envC6.db c
         | none => executeSqlQuery envC6.db (cleanupSqlResponse "SELECT a FROM ghost2")) :=
  ⟨(ask_question_invariants envC6 "q").1,
   (ask_question_invariants envC6 "q").2
     (executeSqlQuery envC6.db (cleanupSqlResponse "SELECT a FROM ghost2")) (by decide)⟩

/-- C7: the reviewer never raises (the embedding is total): a failed
completion call, an undecodable response and a parsed non-object each
yield a `SQLReview` whose text encodes the error with
`corrected_query = None`; and when parsing succeeds but the keys are
absent, the review text defaults to "No review text provided." and the
corrected query to `None`. -/
theorem reviewer_contract (pj : String → ParseOutcome) (e t1 t2 t3 m1 m2 : String)
    (fields : List (String × String))
    (hfail : pj (cleanupJsonResponse t1) = .failure m1)
    (hnonobj : pj (cleanupJsonResponse t2) = .nonObject m2)
    (hobj : pj (cleanupJsonResponse t3) = .object fields)
    (hrev : fields.lookup "review" = none)
    (hcorr : fields.lookup "corrected_query" = none) :
    reviewSqlQuery (Except.error e) pj =
      { review_text := "Error: Could not review SQL query due to an internal error: " ++ e,
        corrected_query := none } ∧
    reviewSqlQuery (Except.ok t1) pj =
      { review_text := "Error: Could not review SQL query due to an internal error: " ++ m1,
        corrected_query := none } ∧
    reviewSqlQuery (Except.ok t2) pj =
      { review_text := "Error: Could not review SQL query due to an internal error: " ++ m2,
        corrected_query := none } ∧
    reviewSqlQuery (Except.ok t3) pj =
      { review_text := "No review text provided.", corrected_query := none } := by
  refine ⟨rfl, ?_, ?_, ?_⟩
  · simp only [reviewSqlQuery, hfail]
  · simp only [reviewSqlQuery, hnonobj]
  · simp only [reviewSqlQuery, hobj]
    rw [hrev, hcorr]
    rfl

/-- Witness for C7 at `pjC7`. -/
theorem reviewer_contract_witness :
    reviewSqlQuery (Except.error "connection reset") pjC7 =
      { review_text :=
          "Error: Could not review SQL query due to an internal error: connection reset",
        corrected_query := none } ∧
    reviewSqlQuery (Except.ok "BADJSON") pjC7 =
      { review_text :=
          "Error: Could not review SQL query due to an internal error: Expecting value",
        corrected_query := none } ∧
    reviewSqlQuery (Except.ok "NOTDICT") pjC7 =
      { review_text :=
          "Error: Could not review SQL query due to an internal error: list object has no attribute get",
        corrected_query := none } ∧
    reviewSqlQuery (Except.ok "EMPTYOBJ") pjC7 =
      { review_text := "No review text provided.", corrected_query := none } := by
  have h := reviewer_contract pjC7 "connection reset" "BADJSON" "NOTDICT" "EMPTYOBJ"
    "Expecting value" "list object has no attribute get" []
    (by decide) (by decide) (by decide) rfl rfl
  exact ⟨h.1, h.2.1, h.2.2.1, h.2.2.2⟩

/-- C8: the synthesizer short-circuits without a completion call on a
failed result — returning the templated error sentence with the error
message — and on a successful zero-row result — returning the fixed "no
results" sentence; and when the completion call itself errors on a
nonempty result, the answer is the fallback sentence stating the row
count. -/
theorem synth_short_circuits {α : Type} (so1 : Except String String) (q : String)
    (qr1 qr2 qr3 : QueryResult α) (rt : Option String) (e : String)
    (h1 : qr1.success = false)
    (h2s : qr2.success = true) (h2d : qr2.data = [])
    (h3s : qr3.success = true) (h3d : qr3.data ≠ []) :
    formatNaturalLanguageResponse so1 q qr1 rt =
      ("I encountered an error while processing your question: " ++ pyStr qr1.error_message,
        false) ∧
    formatNaturalLanguageResponse so1 q qr2 rt =
      ("I found no results for your question in the database.", false) ∧
    formatNaturalLanguageResponse (Except.error e) q qr3 rt =
      ("I found " ++ toString qr3.data.length ++
        " results, but encountered an error formatting the response.", true) := by
  refine ⟨?_, ?_, ?_⟩
  · unfold formatNaturalLanguageResponse
    rw [if_pos h1]
  · unfold formatNaturalLanguageResponse
    rw [if_neg (by rw [h2s]; simp), if_pos (by rw [h2d]; rfl)]
  · unfold formatNaturalLanguageResponse
    rw [if_neg (by rw [h3s]; simp), if_neg (by simp [List.isEmpty_iff, h3d])]

/-- Witness for C8 at the three concrete query results. -/
theorem synth_short_circuits_witness :
    formatNaturalLanguageResponse (Except.ok "ignored") "q" qrFail none =
      ("I encountered an error while processing your question: " ++ pyStr qrFail.error_message,
        false) ∧
    formatNaturalLanguageResponse (Except.ok "ignored") "q" qrEmpty none =
      ("I found no results for your question in the database.", false) ∧
    formatNaturalLanguageResponse (Except.error "synthesis failed") "q" qrRows none =
      ("I found " ++ toString qrRows.data.length ++
        " results, but encountered an error formatting the response.", true) :=
  synth_short_circuits (Except.ok "ignored") "q" qrFail qrEmpty qrRows none
    "synthesis failed" (by decide) (by decide) (by decide) (by decide) (by decide)

/-- C9 (amended): cleaning a generated SQL string wrapped in a
three-backtick-sql fence yields the inner string trimmed of leading and
trailing whitespace; and an already-trimmed string with no leading sql
fence and no trailing fence is left unchanged (a fence-free string with
surrounding whitespace is trimmed, not left unchanged). -/
theorem cleanup_fence_stripping (s t : String) (h1 : pyStrip t = t)
    (h2 : ("```sql".toList.isPrefixOf t.toList) = false)
    (h3 : ("```".toList.isSuffixOf t.toList) = false) :
    cleanupSqlResponse ("```sql" ++ s ++ "```") = pyStrip s ∧ cleanupSqlResponse t = t := by
  constructor
  · unfold cleanupSqlResponse pyStrip
    have harg : ("```sql" ++ s ++ "```").toList =
        "```sql".toList ++ s.toList ++ "```".toList := by
      rw [toList_append_eq, toList_append_eq]
    rw [harg, cleanup_fenced_chars s.toList]
  · unfold cleanupSqlResponse
    have h1' : pyStripChars t.toList = t.toList := by
      have hx : pyStripChars t.toList = ((pyStripChars t.toList).asString).toList := rfl
      unfold pyStrip at h1
      rw [hx, h1]
    rw [cleanup_nofence_chars t.toList h1' h2 h3]
    exact asString_toList t

/-- Witness for C9 at a fenced string with inner whitespace and at a
trimmed fence-free string. -/
theorem cleanup_fence_stripping_witness :
    cleanupSqlResponse ("```sql" ++ " SELECT 1 " ++ "```") = pyStrip " SELECT 1 " ∧
    cleanupSqlResponse "SELECT 2" = "SELECT 2" :=
  cleanup_fence_stripping " SELECT 1 " "SELECT 2" (by decide) (by decide) (by decide)

/-- Counterexample to C9 as stated: the string made of a space and
SELECT 1 and a space has no leading sql fence and no trailing fence,
yet cleanup changes it — the final strip removes the surrounding
whitespace. -/
theorem cleanup_fence_counterexample :
    ("```sql".toList.isPrefixOf " SELECT 1 ".toList) = false ∧
    ("```".toList.isSuffixOf " SELECT 1 ".toList) = false ∧
    cleanupSqlResponse " SELECT 1 " ≠ " SELECT 1 " := by
  refine ⟨by decide, by decide, by decide⟩

/-- C10: every `QueryResult` the system constructs with
`success = false` — from the executor's error branch and from the
orchestrator's top-level exception fallback — has empty data and an
empty column list, so a failed result never carries rows. -/
theorem failed_query_results_empty {α : Type} (env : Env α) (question : String)
    (db : String → DbOutcome α) (sql : String)
    (h1 : (executeSqlQuery db sql).success = false)
    (h2 : (askQuestion env question).1.query_result.success = false) :
    (executeSqlQuery db sql).data = [] ∧ (executeSqlQuery db sql).column_names = [] ∧
    (askQuestion env question).1.query_result.data = [] ∧
    (askQuestion env question).1.query_result.column_names = [] := by
  obtain ⟨hd, hc⟩ := exec_fail_empty db sql h1
  refine ⟨hd, hc, ?_⟩
  cases hg : env.genOutcome with
  | error e =>
    have hq : askQuestion env question =
        ({ natural_language_answer := "Error processing question: " ++ e
           query_result :=
             { sql_query := "", data := [], column_names := [], success := false,
               error_message := some e }
           review := none },
         [ExtCall.genCall]) := by
      unfold askQuestion
      simp only [askQuestionBody, hg]
    rw [hq]
    exact ⟨rfl, rfl⟩
  | ok text =>
    cases hs : (executeSqlQuery env.db (cleanupSqlResponse text)).success with
    | true =>
      exfalso
      have hq : (askQuestion env question).1.query_result =
          executeSqlQuery env.db (cleanupSqlResponse text) := by
        simp only [askQuestion, body_success env question text hg hs]
      rw [hq] at h2
      rw [hs] at h2
      simp at h2
    | false =>
      cases hpt : pyTruthy (reviewSqlQuery env.reviewOutcome env.parseJson).corrected_query with
      | some c =>
        have hq : (askQuestion env question).1.query_result = executeSqlQuery env.db c := by
          simp only [askQuestion, body_corrected env question text c hg hs hpt]
        rw [hq] at h2 ⊢
        exact exec_fail_empty env.db c h2
      | none =>
        have hq : (askQuestion env question).1.query_result =
            executeSqlQuery env.db (cleanupSqlResponse text) := by
          simp only [askQuestion, body_nocorrection env question text hg hs hpt]
        rw [hq]
        exact exec_fail_empty env.db (cleanupSqlResponse text) hs

/-- Witness for C10 at `envC10`, where every attempt fails. -/
theorem failed_query_results_empty_witness :
    (executeSqlQuery envC10.db "SELECT x").data = [] ∧
    (executeSqlQuery envC10.db "SELECT x").column_names = [] ∧
    (askQuestion envC10 "q").1.query_result.data = [] ∧
    (askQuestion envC10 "q").1.query_result.column_names = [] :=
  failed_query_results_empty envC10 "q" envC10.db "SELECT x" (by decide) (by decide)

end SqlAgent
